import Mathlib

/-!
Shallow embedding of the Agentic-RAG-Chatbot messaging core
(src/core/mcp.py, src/core/document_parser.py, src/core/vector_store.py,
src/agents/*.py, src/ui/streamlit_app.py).

Modelling conventions:
- Python dict payloads are modelled by a record of `Option` fields, one per
  key the program ever reads or writes; `none` models an absent key.
- A key that is *present with value `None`* (as produced by
  `context_item['page'] = result.get('page')`) is modelled by an
  `Option (Option Nat)` field: `some none` = key present, value `None`.
- `bytes` values are `List Nat`; external collaborators (the per-format
  parsers, the ChromaDB nearest-neighbour ordering, the Gemini model, the
  uuid4 generator) are parameters gathered in `Collabs`.
- Raising an exception is modelled by `Except String`; the agent
  `handle_message` wrappers are total functions returning the list of
  messages they emit, mirroring the `try/except` that converts every
  exception into a single error emission.
-/

/-- `MessageType` enum from src/core/mcp.py. -/
inductive MessageType where
  | DOC_UPLOADED
  | DOC_INGESTED
  | USER_QUERY
  | RETRIEVAL_REQUEST
  | RETRIEVAL_RESULT
  | FINAL_RESPONSE
  | ERROR
deriving DecidableEq, Repr

/-- The `.value` string of each enum member. -/
def MessageType.value : MessageType → String
  | .DOC_UPLOADED => "DOC_UPLOADED"
  | .DOC_INGESTED => "DOC_INGESTED"
  | .USER_QUERY => "USER_QUERY"
  | .RETRIEVAL_REQUEST => "RETRIEVAL_REQUEST"
  | .RETRIEVAL_RESULT => "RETRIEVAL_RESULT"
  | .FINAL_RESPONSE => "FINAL_RESPONSE"
  | .ERROR => "ERROR"

/-- A chunk dict as built by the parsers in src/core/document_parser.py:
`text` plus at most one locator key (`page`/`slide`/`row`/`paragraph`),
a `type` key, and the `source` key stamped by `parse_document`.
`none` models an absent key. -/
structure Chunk where
  text : String
  page : Option Nat := none
  slide : Option Nat := none
  row : Option Nat := none
  paragraph : Option Nat := none
  type : Option String := none
  source : Option String := none
deriving DecidableEq, Repr

/-- A search-result dict from `VectorStore.search`
(src/core/vector_store.py lines 70-82): `{'text': doc, 'score': ..., **metadata}`.
The `text` and `score` keys are always written; the metadata keys are those of
the stored chunk. -/
structure Hit where
  text : String
  score : Rat
  page : Option Nat := none
  slide : Option Nat := none
  row : Option Nat := none
  paragraph : Option Nat := none
  type : Option String := none
  source : Option String := none
deriving DecidableEq, Repr

/-- A context item dict as built by `RetrievalAgent._perform_retrieval`
(src/agents/retrieval_agent.py lines 60-78). The locator fields are
`Option (Option Nat)`: the outer layer models key presence
(`context_item['page'] = result.get('page')` writes the key even when the
hit has no `page` metadata, in which case the stored value is `None`,
modelled `some none`). -/
structure ContextItem where
  text : String
  source : String
  score : Rat
  page : Option (Option Nat) := none
  slide : Option (Option Nat) := none
  row : Option (Option Nat) := none
  paragraph : Option (Option Nat) := none
deriving DecidableEq, Repr

/-- A source-info entry dict as built by `LLMResponseAgent._generate_response`
(src/agents/llm_response_agent.py lines 78-92). -/
structure SourceEntry where
  document : String
  page : Option (Option Nat) := none
  slide : Option (Option Nat) := none
  row : Option (Option Nat) := none
  paragraph : Option (Option Nat) := none
deriving DecidableEq, Repr

mutual

/-- The payload dict of an `MCPMessage`: one `Option` field per key any agent
ever reads or writes (`none` = key absent). `original_message` holds the
`to_dict()` of a prior message, hence the mutual recursion with `MsgDict`. -/
inductive Payload where
  | mk
      (file_name : Option String)
      (file_data : Option (List Nat))
      (chunks : Option (List Chunk))
      (total_chunks : Option Nat)
      (query : Option String)
      (n_results : Option Nat)
      (retrieved_context : Option (List ContextItem))
      (total_results : Option Nat)
      (answer : Option String)
      (source_info : Option (List SourceEntry))
      (error : Option String)
      (original_message : Option MsgDict) : Payload

/-- The dict produced by `MCPMessage.to_dict` (src/core/mcp.py lines 28-35):
sender, receiver, the enum's `.value` string, trace id, and the payload. -/
inductive MsgDict where
  | mk (sender : String) (receiver : String) (type : String)
       (trace_id : String) (payload : Payload) : MsgDict

end

def Payload.file_name : Payload → Option String
  | .mk a _ _ _ _ _ _ _ _ _ _ _ => a

def Payload.file_data : Payload → Option (List Nat)
  | .mk _ a _ _ _ _ _ _ _ _ _ _ => a

def Payload.chunks : Payload → Option (List Chunk)
  | .mk _ _ a _ _ _ _ _ _ _ _ _ => a

def Payload.total_chunks : Payload → Option Nat
  | .mk _ _ _ a _ _ _ _ _ _ _ _ => a

def Payload.query : Payload → Option String
  | .mk _ _ _ _ a _ _ _ _ _ _ _ => a

def Payload.n_results : Payload → Option Nat
  | .mk _ _ _ _ _ a _ _ _ _ _ _ => a

def Payload.retrieved_context : Payload → Option (List ContextItem)
  | .mk _ _ _ _ _ _ a _ _ _ _ _ => a

def Payload.total_results : Payload → Option Nat
  | .mk _ _ _ _ _ _ _ a _ _ _ _ => a

def Payload.answer : Payload → Option String
  | .mk _ _ _ _ _ _ _ _ a _ _ _ => a

def Payload.source_info : Payload → Option (List SourceEntry)
  | .mk _ _ _ _ _ _ _ _ _ a _ _ => a

def Payload.error : Payload → Option String
  | .mk _ _ _ _ _ _ _ _ _ _ a _ => a

def Payload.original_message : Payload → Option MsgDict
  | .mk _ _ _ _ _ _ _ _ _ _ _ a => a

/-- The payload dict with no keys. -/
def Payload.empty : Payload :=
  .mk none none none none none none none none none none none none

/-- `MCPMessage` dataclass from src/core/mcp.py lines 20-26. -/
structure MCPMessage where
  sender : String
  receiver : String
  type : MessageType
  trace_id : String
  payload : Payload

/-- `MCPMessage.to_dict` (src/core/mcp.py lines 28-35). -/
def MCPMessage.toDict (m : MCPMessage) : MsgDict :=
  .mk m.sender m.receiver m.type.value m.trace_id m.payload

/-- Python's `trace_id or str(uuid.uuid4())` in
`MCPMessageBus.create_message`: the given trace id unless it is falsy
(absent or the empty string), in which case the freshly drawn uuid. -/
def pyOr : Option String → String → String
  | none, fresh => fresh
  | some t, fresh => if t = "" then fresh else t

/-- `MCPMessageBus.create_message` (src/core/mcp.py lines 59-68).
`fresh` models the `str(uuid.uuid4())` draw made at this call. -/
def MCPMessageBus.create_message (sender receiver : String)
    (msg_type : MessageType) (payload : Payload)
    (trace_id : Option String) (fresh : String) : MCPMessage :=
  { sender := sender, receiver := receiver, type := msg_type,
    trace_id := pyOr trace_id fresh, payload := payload }

/-- External collaborators (spec section 6): the five per-format extraction
routines of src/core/document_parser.py (they delegate to PyPDF2, python-pptx,
pandas, python-docx and markdown, all external libraries), the ChromaDB
nearest-neighbour ordering used by `VectorStore.search`, and the Gemini call
made by `_generate_llm_response`. `Except String` models a raised exception.
`rank` returns the stored chunks paired with their cosine distances, ordered
by similarity to the query. -/
structure Collabs where
  parse_pdf : List Nat → Except String (List Chunk)
  parse_pptx : List Nat → Except String (List Chunk)
  parse_csv : List Nat → Except String (List Chunk)
  parse_docx : List Nat → Except String (List Chunk)
  parse_txt : List Nat → Except String (List Chunk)
  parse_md : List Nat → Except String (List Chunk)
  rank : String → List Chunk → List (Chunk × Rat)
  llm : String → Except String String

namespace DocumentParser

/-- The `parser_map` dict lookup in `DocumentParser.parse_document`
(src/core/document_parser.py lines 127-134), keyed by the extracted
extension. -/
def parserFor (c : Collabs) : String → Option (List Nat → Except String (List Chunk))
  | "pdf" => some c.parse_pdf
  | "pptx" => some c.parse_pptx
  | "csv" => some c.parse_csv
  | "docx" => some c.parse_docx
  | "txt" => some c.parse_txt
  | "md" => some c.parse_md
  | _ => none

/-- Python `str.lower()` (character-wise lowering; the extensions compared
against are ASCII). -/
def pyLower (s : String) : String := String.mk (s.data.map Char.toLower)

/-- Python `s.split('.')` on a character list: the dot-separated parts, in
order; the empty string yields one empty part, as in Python. -/
def splitDots : List Char → List (List Char)
  | [] => [[]]
  | ch :: rest =>
    if ch = '.' then [] :: splitDots rest
    else
      match splitDots rest with
      | [] => [[ch]]
      | p :: ps => (ch :: p) :: ps

/-- `file_name.lower().split('.')[-1]` from `DocumentParser.parse_document`
(src/core/document_parser.py line 125). -/
def fileExtension (file_name : String) : String :=
  String.mk ((splitDots (pyLower file_name).data).getLastD [])

/-- `DocumentParser.parse_document` (src/core/document_parser.py lines
122-145): extracts `file_name.lower().split('.')[-1]`, routes to the
matching format routine (raising `Unsupported file format` when there is
none), then stamps `chunk['source'] = file_name` on every chunk. -/
def parse_document (c : Collabs) (file_data : List Nat) (file_name : String) :
    Except String (List Chunk) :=
  match parserFor c (fileExtension file_name) with
  | none => .error ("Unsupported file format: " ++ fileExtension file_name)
  | some p =>
    (p file_data).map (fun chunks =>
      chunks.map (fun ch => { ch with source := some file_name }))

end DocumentParser

namespace VectorStore

/-- The search-result dict `{'text': doc, 'score': distance, **metadata}`
built in `VectorStore.search` (src/core/vector_store.py lines 75-79);
the metadata is the stored chunk minus its `text` key. -/
def hitOf (ch : Chunk) (distance : Rat) : Hit :=
  { text := ch.text, score := distance, page := ch.page, slide := ch.slide,
    row := ch.row, paragraph := ch.paragraph, type := ch.type,
    source := ch.source }

/-- `VectorStore.add_documents` (src/core/vector_store.py lines 28-57): each
chunk is stored (text as the document, the remaining keys as metadata); the
random uuid ids play no further role and are not modelled. -/
def add_documents (store : List Chunk) (chunks : List Chunk) : List Chunk :=
  store ++ chunks

/-- `VectorStore.search` (src/core/vector_store.py lines 59-82): returns `[]`
when the collection is empty, otherwise asks the ChromaDB collection for the
`min(n_results, count)` nearest neighbours (modelled by taking that prefix
of the collaborator's similarity ordering `rank`) and formats each as a
`Hit`. -/
def search (c : Collabs) (store : List Chunk) (query : String)
    (n_results : Nat) : List Hit :=
  if store.length = 0 then []
  else
    ((c.rank query store).take (min n_results store.length)).map
      (fun p => hitOf p.1 p.2)

end VectorStore

namespace RetrievalAgent

/-- The context-item construction in `RetrievalAgent._perform_retrieval`
(src/agents/retrieval_agent.py lines 62-78): base keys `text`, `source`
(defaulted to `"unknown"`), `score` (defaulted to `0.0`), then one locator
key chosen by the chain on `result.get('type')` — `pdf` writes `page`,
`pptx` writes `slide`, `csv` writes `row`, `docx`/`txt`/`md` write
`paragraph`, and any other (or missing) type writes no locator key. -/
def contextItemOf (result : Hit) : ContextItem :=
  let base : ContextItem :=
    { text := result.text, source := result.source.getD "unknown",
      score := result.score }
  if result.type = some "pdf" then { base with page := some result.page }
  else if result.type = some "pptx" then { base with slide := some result.slide }
  else if result.type = some "csv" then { base with row := some result.row }
  else if result.type = some "docx" ∨ result.type = some "txt"
      ∨ result.type = some "md" then
    { base with paragraph := some result.paragraph }
  else base

/-- `RetrievalAgent._ingest_chunks` (src/agents/retrieval_agent.py lines
28-41): adds `payload.get('chunks', [])` to the vector store; no emission. -/
def ingest_chunks (store : List Chunk) (message : MCPMessage) : List Chunk :=
  VectorStore.add_documents store (message.payload.chunks.getD [])

/-- `RetrievalAgent._perform_retrieval` (src/agents/retrieval_agent.py lines
43-90): raises on a falsy `query`, searches the store with
`payload.get('n_results', 5)`, maps every hit to a context item, and emits
one `RETRIEVAL_RESULT` to `LLMResponseAgent` with the incoming trace id. -/
def perform_retrieval (c : Collabs) (fresh : String) (store : List Chunk)
    (message : MCPMessage) : Except String MCPMessage :=
  match message.payload.query with
  | none => .error "Missing query in retrieval request"
  | some q =>
    if q = "" then .error "Missing query in retrieval request"
    else
      let results := VectorStore.search c store q (message.payload.n_results.getD 5)
      let retrieved_context := results.map contextItemOf
      .ok (MCPMessageBus.create_message "RetrievalAgent" "LLMResponseAgent"
        .RETRIEVAL_RESULT
        (.mk none none none none (some q) none (some retrieved_context)
          (some results.length) none none none none)
        (some message.trace_id) fresh)

/-- `RetrievalAgent._send_error_message` (src/agents/retrieval_agent.py lines
92-102): one `ERROR` message back to the original sender, carrying the error
string and `original_message.to_dict()`, with the original trace id. -/
def errorMessage (fresh : String) (original : MCPMessage) (e : String) :
    MCPMessage :=
  MCPMessageBus.create_message "RetrievalAgent" original.sender .ERROR
    (.mk none none none none none none none none none none (some e)
      (some original.toDict))
    (some original.trace_id) fresh

/-- `RetrievalAgent.handle_message` (src/agents/retrieval_agent.py lines
15-26): dispatches on the message type; any exception is caught and turned
into one error emission; unrecognized types are logged and dropped. Returns
the updated vector store and the emitted messages. -/
def handle_message (c : Collabs) (fresh : String) (store : List Chunk)
    (message : MCPMessage) : List Chunk × List MCPMessage :=
  match message.type with
  | .DOC_INGESTED => (ingest_chunks store message, [])
  | .RETRIEVAL_REQUEST =>
    match perform_retrieval c fresh store message with
    | .ok m => (store, [m])
    | .error e => (store, [errorMessage fresh message e])
  | _ => (store, [])

end RetrievalAgent

namespace IngestionAgent

/-- `IngestionAgent._process_document` (src/agents/ingestion_agent.py lines
26-52): raises `Missing file_name or file_data in payload` when either field
is falsy (absent, empty string, empty bytes), otherwise parses the document
and emits one `DOC_INGESTED` to `RetrievalAgent` whose payload carries the
chunks, the file name and `total_chunks = len(chunks)`, with the incoming
trace id. -/
def process_document (c : Collabs) (fresh : String) (message : MCPMessage) :
    Except String MCPMessage :=
  match message.payload.file_name, message.payload.file_data with
  | some fn, some fd =>
    if fn = "" ∨ fd = [] then
      .error "Missing file_name or file_data in payload"
    else
      (DocumentParser.parse_document c fd fn).map (fun chunks =>
        MCPMessageBus.create_message "IngestionAgent" "RetrievalAgent"
          .DOC_INGESTED
          (.mk (some fn) none (some chunks) (some chunks.length) none none
            none none none none none none)
          (some message.trace_id) fresh)
  | _, _ => .error "Missing file_name or file_data in payload"

/-- `IngestionAgent._send_error_message` (src/agents/ingestion_agent.py lines
54-64): one `ERROR` message back to the original sender with the error string
and `original_message.to_dict()`, same trace id. -/
def errorMessage (fresh : String) (original : MCPMessage) (e : String) :
    MCPMessage :=
  MCPMessageBus.create_message "IngestionAgent" original.sender .ERROR
    (.mk none none none none none none none none none none (some e)
      (some original.toDict))
    (some original.trace_id) fresh

/-- `IngestionAgent.handle_message` (src/agents/ingestion_agent.py lines
15-24): processes `DOC_UPLOADED`, converting any exception into exactly one
error emission; other types are logged and dropped. The function is total:
no exception escapes the handler. -/
def handle_message (c : Collabs) (fresh : String) (message : MCPMessage) :
    List MCPMessage :=
  match message.type with
  | .DOC_UPLOADED =>
    match process_document c fresh message with
    | .ok m => [m]
    | .error e => [errorMessage fresh message e]
  | _ => []

end IngestionAgent

namespace LLMResponseAgent

/-- `LLMResponseAgent._process_user_query` (src/agents/llm_response_agent.py
lines 42-61): raises on a falsy `query`, otherwise emits one
`RETRIEVAL_REQUEST{query, n_results: 5}` to `RetrievalAgent` with the
incoming trace id. -/
def process_user_query (fresh : String) (message : MCPMessage) :
    Except String MCPMessage :=
  match message.payload.query with
  | none => .error "Missing query in user message"
  | some q =>
    if q = "" then .error "Missing query in user message"
    else
      .ok (MCPMessageBus.create_message "LLMResponseAgent" "RetrievalAgent"
        .RETRIEVAL_REQUEST
        (.mk none none none none (some q) (some 5) none none none none none
          none)
        (some message.trace_id) fresh)

/-- `LLMResponseAgent._generate_fallback_response` (src/agents/
llm_response_agent.py lines 134-146): the fixed no-context message when the
context list is empty; otherwise one snippet per item of `context[:3]`, each
`"From {source}: {text}"` with the text cut to its first 200 characters plus
`"..."` when longer than 200 characters, joined under a fixed header. The
`query` argument is accepted but unused, exactly as in the source. -/
def generate_fallback_response (query : Option String)
    (context : List ContextItem) : String :=
  if context = [] then
    "I couldn't find relevant information in the uploaded documents to answer your question."
  else
    let context_snippets := (context.take 3).map (fun item =>
      let text :=
        if item.text.length > 200 then item.text.take 200 ++ "..."
        else item.text
      "From " ++ item.source ++ ": " ++ text)
    "Based on the uploaded documents, here are the most relevant passages:\n\n"
      ++ String.intercalate "\n\n" context_snippets

/-- The prompt built by `LLMResponseAgent._generate_llm_response`
(src/agents/llm_response_agent.py lines 108-125). -/
def promptOf (query : Option String) (context : List ContextItem) : String :=
  let context_text := String.intercalate "\n\n"
    (context.map (fun item => "Source: " ++ item.source ++ "\n" ++ item.text))
  "\nBased on the following context from uploaded documents, answer the user's question. \nBe accurate, concise, and cite the sources when possible.\n\nContext:\n"
    ++ context_text ++ "\n\nQuestion: " ++ (query.getD "None")
    ++ "\n\nAnswer:\n"

/-- `LLMResponseAgent._generate_llm_response` (src/agents/llm_response_agent.py
lines 106-132): calls the Gemini collaborator on the prompt and falls back to
the extractive summary when the call raises. -/
def generate_llm_response (c : Collabs) (query : Option String)
    (context : List ContextItem) : String :=
  match c.llm (promptOf query context) with
  | .ok t => t
  | .error _ => generate_fallback_response query context

/-- The source-entry construction in `LLMResponseAgent._generate_response`
(src/agents/llm_response_agent.py lines 78-92): `document` from the item's
`source`, then the first locator key present on the context item (the
`if/elif` chain tests key presence), copied with its value. -/
def sourceEntryOf (context : ContextItem) : SourceEntry :=
  let base : SourceEntry := { document := context.source }
  if context.page.isSome then { base with page := context.page }
  else if context.slide.isSome then { base with slide := context.slide }
  else if context.row.isSome then { base with row := context.row }
  else if context.paragraph.isSome then
    { base with paragraph := context.paragraph }
  else base

/-- `LLMResponseAgent._generate_response` (src/agents/llm_response_agent.py
lines 63-104): chooses the Gemini path or the fallback by `llm_available`,
derives one source entry per context item, and emits one `FINAL_RESPONSE` to
`"UI"` with the incoming trace id. -/
def generate_response (c : Collabs) (llm_available : Bool) (fresh : String)
    (message : MCPMessage) : MCPMessage :=
  let query := message.payload.query
  let retrieved_context := message.payload.retrieved_context.getD []
  let response :=
    if llm_available then generate_llm_response c query retrieved_context
    else generate_fallback_response query retrieved_context
  let source_info := retrieved_context.map sourceEntryOf
  MCPMessageBus.create_message "LLMResponseAgent" "UI" .FINAL_RESPONSE
    (.mk none none none none query none none none (some response)
      (some source_info) none none)
    (some message.trace_id) fresh

/-- `LLMResponseAgent._send_error_message` (src/agents/llm_response_agent.py
lines 148-158): unlike the other agents, always addressed to `"UI"`. -/
def errorMessage (fresh : String) (original : MCPMessage) (e : String) :
    MCPMessage :=
  MCPMessageBus.create_message "LLMResponseAgent" "UI" .ERROR
    (.mk none none none none none none none none none none (some e)
      (some original.toDict))
    (some original.trace_id) fresh

/-- `LLMResponseAgent.handle_message` (src/agents/llm_response_agent.py lines
29-40). -/
def handle_message (c : Collabs) (llm_available : Bool) (fresh : String)
    (message : MCPMessage) : List MCPMessage :=
  match message.type with
  | .USER_QUERY =>
    match process_user_query fresh message with
    | .ok m => [m]
    | .error e => [errorMessage fresh message e]
  | .RETRIEVAL_RESULT => [generate_response c llm_available fresh message]
  | _ => []

end LLMResponseAgent

namespace UIAgent

/-- `UIAgent.handle_message` (src/ui/streamlit_app.py lines 18-25): stores
`FINAL_RESPONSE` payloads in `self.responses` and `ERROR` payloads in
`self.errors`, keyed by trace id (dict write = newest entry shadows older
ones, modelled by consing and first-match lookup). -/
def handle_message (responses errors : List (String × Payload))
    (message : MCPMessage) :
    List (String × Payload) × List (String × Payload) :=
  match message.type with
  | .FINAL_RESPONSE => ((message.trace_id, message.payload) :: responses, errors)
  | .ERROR => (responses, (message.trace_id, message.payload) :: errors)
  | _ => (responses, errors)

/-- `UIAgent.upload_document` (src/ui/streamlit_app.py lines 27-41): mints a
fresh uuid4 trace id (the `trace_id` argument models that draw), emits one
`DOC_UPLOADED` to `IngestionAgent` under it, and returns it. -/
def upload_document (trace_id : String) (file_name : String)
    (file_data : List Nat) : MCPMessage × String :=
  (MCPMessageBus.create_message "UI" "IngestionAgent" .DOC_UPLOADED
    (.mk (some file_name) (some file_data) none none none none none none
      none none none none)
    (some trace_id) trace_id, trace_id)

/-- `UIAgent.ask_question` (src/ui/streamlit_app.py lines 43-56): mints a
fresh uuid4 trace id, emits one `USER_QUERY` to `LLMResponseAgent` under it,
and returns it. -/
def ask_question (trace_id : String) (query : String) : MCPMessage × String :=
  (MCPMessageBus.create_message "UI" "LLMResponseAgent" .USER_QUERY
    (.mk none none none none (some query) none none none none none none none)
    (some trace_id) trace_id, trace_id)

end UIAgent

/-- The four concrete agents that subscribe to the bus (src/ui/streamlit_app.py
lines 13-14 and 85-92). -/
inductive AgentId where
  | ingestion
  | retrieval
  | generation
  | ui
deriving DecidableEq, Repr

/-- The mutable state owned by the agents: the retrieval agent's vector
store, the generation agent's `llm_available` flag (set once from the
`GOOGLE_API_KEY` setting), and the UI agent's `responses`/`errors` dicts. -/
structure AgentStates where
  vstore : List Chunk
  llm_available : Bool
  ui_responses : List (String × Payload)
  ui_errors : List (String × Payload)

/-- Bus state: `handlers` models `MCPMessageBus._handlers` (a dict from agent
name to its bound handler, last write wins — modelled by consing and
first-match lookup); `queue` models `MCPMessageBus._message_queue`, which
`send_message` appends to and nothing ever reads; `uuid_ctr` indexes the
stream of uuid4 draws. -/
structure SystemState where
  handlers : List (String × AgentId)
  queue : List MCPMessage
  agents : AgentStates
  uuid_ctr : Nat

/-- `MCPMessageBus.subscribe` (src/core/mcp.py lines 45-48): binds the name
to the handler, shadowing any earlier binding. -/
def MCPMessageBus.subscribe (handlers : List (String × AgentId))
    (agent_name : String) (aid : AgentId) : List (String × AgentId) :=
  (agent_name, aid) :: handlers

/-- The `message.receiver in self._handlers` lookup of
`MCPMessageBus.send_message` (src/core/mcp.py lines 55-56). -/
def lookupHandler : List (String × AgentId) → String → Option AgentId
  | [], _ => none
  | (n, a) :: rest, name => if n = name then some a else lookupHandler rest name

/-- One `handle_message` activation of the agent bound under `aid`: returns
the updated agent states and the messages the handler emits (each handler
sends via `BaseAgent.send_message`; the uuid4 draw available to
`create_message` during this activation is `fresh`). The UI agent only
stores; it emits nothing. -/
def dispatchAgent (c : Collabs) (fresh : String) (aid : AgentId)
    (ag : AgentStates) (message : MCPMessage) :
    AgentStates × List MCPMessage :=
  match aid with
  | .ingestion => (ag, IngestionAgent.handle_message c fresh message)
  | .retrieval =>
    let r := RetrievalAgent.handle_message c fresh ag.vstore message
    ({ ag with vstore := r.1 }, r.2)
  | .generation =>
    (ag, LLMResponseAgent.handle_message c ag.llm_available fresh message)
  | .ui =>
    let r := UIAgent.handle_message ag.ui_responses ag.ui_errors message
    ({ ag with ui_responses := r.1, ui_errors := r.2 }, [])

/-- The uuid4 stream: draw number `n`. Modelled as an arbitrary injection of
the counter into strings; only freshness relative to the draws already made
matters, and no claim depends on the concrete value. -/
def uuidDraw (n : Nat) : String := "uuid-" ++ toString n

mutual

/-- `MCPMessageBus.send_message` (src/core/mcp.py lines 50-57): first
`await self._message_queue.put(message)` (append to the audit queue), then,
when `message.receiver in self._handlers`, `await handler(message)` — a
direct synchronous call whose own emissions are delivered the same way
before control returns. `fuel` bounds the recursion depth; every chain in
this system has depth at most 4, so any fuel ≥ 4 is exact. When the
receiver has no binding, nothing beyond the queue append happens. -/
def sendMessage (c : Collabs) (fuel : Nat) (sys : SystemState)
    (message : MCPMessage) : SystemState :=
  match fuel with
  | 0 => { sys with queue := sys.queue ++ [message] }
  | fuel + 1 =>
    match lookupHandler sys.handlers message.receiver with
    | none => { sys with queue := sys.queue ++ [message] }
    | some aid =>
      sendAll c fuel
        { sys with
          queue := sys.queue ++ [message]
          agents := (dispatchAgent c (uuidDraw sys.uuid_ctr) aid sys.agents
            message).1
          uuid_ctr := sys.uuid_ctr + 1 }
        (dispatchAgent c (uuidDraw sys.uuid_ctr) aid sys.agents message).2
termination_by (fuel, 0)

/-- Delivers, in order, each message an activation emitted. -/
def sendAll (c : Collabs) (fuel : Nat) (sys : SystemState) :
    List MCPMessage → SystemState
  | [] => sys
  | m :: ms => sendAll c fuel (sendMessage c fuel sys m) ms
termination_by ms => (fuel, ms.length + 1)

end

/-- Number of locator keys present on a context item. -/
def ContextItem.locatorKeyCount (item : ContextItem) : Nat :=
  (if item.page.isSome then 1 else 0) + (if item.slide.isSome then 1 else 0)
    + (if item.row.isSome then 1 else 0)
    + (if item.paragraph.isSome then 1 else 0)

/-- Number of locator keys present on a source-info entry. -/
def SourceEntry.locatorKeyCount (entry : SourceEntry) : Nat :=
  (if entry.page.isSome then 1 else 0) + (if entry.slide.isSome then 1 else 0)
    + (if entry.row.isSome then 1 else 0)
    + (if entry.paragraph.isSome then 1 else 0)

/-- The document kinds the retrieval stage's locator chain recognizes. -/
def IsKnownKind (t : Option String) : Prop :=
  t = some "pdf" ∨ t = some "pptx" ∨ t = some "csv" ∨ t = some "docx"
    ∨ t = some "txt" ∨ t = some "md"

instance (t : Option String) : Decidable (IsKnownKind t) := by
  unfold IsKnownKind; infer_instance

/-- The stored chunk recoverable from a formatted search hit (drops the
`score` key added by `VectorStore.search`). -/
def Hit.toChunk (h : Hit) : Chunk :=
  { text := h.text, page := h.page, slide := h.slide, row := h.row,
    paragraph := h.paragraph, type := h.type, source := h.source }

/-- Concrete collaborators used to instantiate hypotheses at witnesses: every
format routine succeeds with one chunk, the similarity ordering keeps the
store order with distance 0, the generation model is unavailable. -/
def cTest : Collabs where
  parse_pdf := fun _ => .ok [{ text := "p", page := some 1, type := some "pdf" }]
  parse_pptx := fun _ => .ok [{ text := "s", slide := some 1, type := some "pptx" }]
  parse_csv := fun _ => .ok [{ text := "r", row := some 0, type := some "csv" }]
  parse_docx := fun _ => .ok [{ text := "d", paragraph := some 1, type := some "docx" }]
  parse_txt := fun _ => .ok [{ text := "hello", paragraph := some 1, type := some "txt" }]
  parse_md := fun _ => .ok [{ text := "m", paragraph := some 1, type := some "md" }]
  rank := fun _ l => l.map (fun ch => (ch, 0))
  llm := fun _ => .error "quota"

/-- Concrete collaborators whose format routines all fail. -/
def cFail : Collabs where
  parse_pdf := fun _ => .error "boom"
  parse_pptx := fun _ => .error "boom"
  parse_csv := fun _ => .error "boom"
  parse_docx := fun _ => .error "boom"
  parse_txt := fun _ => .error "boom"
  parse_md := fun _ => .error "boom"
  rank := fun _ l => l.map (fun ch => (ch, 0))
  llm := fun _ => .error "quota"

/-- C7: the fallback generation (collaborator unavailable) is a deterministic
pure function of `query` and `retrievedContext` (it is a Lean function of
exactly those inputs, so repeated calls are byte-identical); its output is
built from at most the top 3 context items (conjunct 2: the tail beyond the
first three is irrelevant); and each used item contributes its text cut to
200 characters with an appended `"..."` when longer than 200 characters and
untruncated otherwise (conjunct 3 exhibits the exact output shape). -/
theorem fallback_pure_top3_truncation (q : Option String)
    (ctx : List ContextItem) :
    LLMResponseAgent.generate_fallback_response q ctx
      = LLMResponseAgent.generate_fallback_response q ctx
    ∧ LLMResponseAgent.generate_fallback_response q ctx
      = LLMResponseAgent.generate_fallback_response q (ctx.take 3)
    ∧ (ctx ≠ [] →
        LLMResponseAgent.generate_fallback_response q ctx
          = "Based on the uploaded documents, here are the most relevant passages:\n\n"
            ++ String.intercalate "\n\n" ((ctx.take 3).map (fun item =>
                "From " ++ item.source ++ ": "
                  ++ (if item.text.length > 200 then item.text.take 200 ++ "..."
                      else item.text)))) := by
  refine ⟨rfl, ?_, ?_⟩
  · by_cases hc : ctx = []
    · subst hc; rfl
    · have ht : ctx.take 3 ≠ [] := by
        simp [List.take_eq_nil_iff, hc]
      simp only [LLMResponseAgent.generate_fallback_response, if_neg hc,
        if_neg ht, List.take_take, min_self]
  · intro hc
    simp only [LLMResponseAgent.generate_fallback_response, if_neg hc]

/-- C7 witness: the theorem applied at a concrete query and a two-item
context whose first text is short and second text is 201 characters long. -/
theorem fallback_pure_top3_truncation_witness :
    LLMResponseAgent.generate_fallback_response (some "q")
        [{ text := "short", source := "a.txt", score := 0 }]
      = LLMResponseAgent.generate_fallback_response (some "q")
          ([{ text := "short", source := "a.txt", score := 0 }].take 3)
    ∧ LLMResponseAgent.generate_fallback_response (some "q")
        [{ text := "short", source := "a.txt", score := 0 }]
      = "Based on the uploaded documents, here are the most relevant passages:\n\nFrom a.txt: short" := by
  have h := fallback_pure_top3_truncation (some "q")
    [{ text := "short", source := "a.txt", score := 0 }]
  refine ⟨h.2.1, ?_⟩
  have h3 := h.2.2 (by decide)
  rw [h3]
  rfl

/-- C8: `VectorStore.search` returns at most `min(topK, count)` hits and is
total (never raises); on an empty index it returns the empty sequence; and
when the collaborator ordering is a permutation of the store (the ChromaDB
contract when asked for `count` many) and the index holds no more than
`topK` items, every indexed item is returned. -/
theorem search_bounded (c : Collabs) (store : List Chunk) (q : String)
    (k : Nat) :
    (VectorStore.search c store q k).length ≤ min k store.length
    ∧ (store = [] → VectorStore.search c store q k = [])
    ∧ (((c.rank q store).map Prod.fst).Perm store → store.length ≤ k →
        ((VectorStore.search c store q k).map Hit.toChunk).Perm store) := by
  refine ⟨?_, ?_, ?_⟩
  · unfold VectorStore.search
    split
    · simp
    · simp only [List.length_map, List.length_take]
      exact min_le_left _ _
  · intro h
    subst h
    rfl
  · intro hp hk
    by_cases hs : store.length = 0
    · rw [List.length_eq_zero] at hs
      subst hs
      simp [VectorStore.search]
    · have hlen : (c.rank q store).length = store.length := by
        have := hp.length_eq
        simpa using this
      unfold VectorStore.search
      rw [if_neg hs, min_eq_right hk,
        List.take_of_length_le (le_of_eq hlen), List.map_map]
      have : (Hit.toChunk ∘ fun p : Chunk × Rat => VectorStore.hitOf p.1 p.2)
          = Prod.fst := by
        funext p
        rfl
      rw [this]
      exact hp

/-- C8 witness: the theorem applied to a one-chunk store, the identity
similarity ordering of `cTest`, and `topK = 5`. -/
theorem search_bounded_witness :
    (VectorStore.search cTest [{ text := "a" }] "x" 5).length
        ≤ min 5 [{ text := "a" : Chunk }].length
    ∧ ((VectorStore.search cTest [{ text := "a" }] "x" 5).map
        Hit.toChunk).Perm [{ text := "a" }] := by
  have h := search_bounded cTest [{ text := "a" }] "x" 5
  refine ⟨h.1, h.2.2 ?_ ?_⟩
  · simp [cTest]
  · decide

theorem pyOr_some {t : String} (h : t ≠ "") (fresh : String) :
    pyOr (some t) fresh = t := by
  simp [pyOr, h]

theorem parse_document_stamps (c : Collabs) (fd : List Nat) (fn : String)
    (chunks : List Chunk)
    (h : DocumentParser.parse_document c fd fn = .ok chunks) :
    ∀ ch ∈ chunks, ch.source = some fn := by
  unfold DocumentParser.parse_document at h
  cases hp : DocumentParser.parserFor c (DocumentParser.fileExtension fn) with
  | none => rw [hp] at h; exact absurd h (by simp)
  | some p =>
    rw [hp] at h
    simp only at h
    cases hr : p fd with
    | error e => rw [hr] at h; exact absurd h (by simp [Except.map])
    | ok raw =>
      rw [hr] at h
      simp only [Except.map, Except.ok.injEq] at h
      subst h
      intro ch hch
      rcases List.mem_map.mp hch with ⟨ch0, _, rfl⟩
      rfl

/-- C10: an upload payload whose `file_name` is the empty string, or whose
`file_data` is the empty byte string (or either field absent), is treated as
missing: the ingestion stage emits the malformed-payload error envelope back
to the sender, and the per-format extraction routines are never invoked (the
result is identical for any two collaborator sets `c` and `c2`). -/
theorem empty_upload_fields_malformed (c c2 : Collabs) (fresh : String)
    (msg : MCPMessage) (htype : msg.type = .DOC_UPLOADED)
    (h : msg.payload.file_name = some "" ∨ msg.payload.file_data = some []
      ∨ msg.payload.file_name = none ∨ msg.payload.file_data = none) :
    IngestionAgent.handle_message c fresh msg
      = [IngestionAgent.errorMessage fresh msg
          "Missing file_name or file_data in payload"]
    ∧ IngestionAgent.handle_message c fresh msg
      = IngestionAgent.handle_message c2 fresh msg := by
  have key : ∀ c3 : Collabs, IngestionAgent.process_document c3 fresh msg
      = .error "Missing file_name or file_data in payload" := by
    intro c3
    unfold IngestionAgent.process_document
    rcases h with h | h | h | h
    · cases hd : msg.payload.file_data <;> simp [h, hd]
    · cases hn : msg.payload.file_name <;> simp [h, hn]
    · simp [h]
    · cases hn : msg.payload.file_name <;> simp [h, hn]
  constructor
  · simp [IngestionAgent.handle_message, htype, key c]
  · simp [IngestionAgent.handle_message, htype, key c, key c2]

/-- C10 witness: a `DOC_UPLOADED` payload with `file_name = "doc.txt"` but
empty `file_data`, under the all-succeeding and the all-failing
collaborators. -/
theorem empty_upload_fields_malformed_witness :
    IngestionAgent.handle_message cTest "u1"
        { sender := "UI", receiver := "IngestionAgent", type := .DOC_UPLOADED,
          trace_id := "t1",
          payload := .mk (some "doc.txt") (some []) none none none none none
            none none none none none }
      = [IngestionAgent.errorMessage "u1"
          { sender := "UI", receiver := "IngestionAgent",
            type := .DOC_UPLOADED, trace_id := "t1",
            payload := .mk (some "doc.txt") (some []) none none none none
              none none none none none none }
          "Missing file_name or file_data in payload"]
    ∧ IngestionAgent.handle_message cTest "u1"
        { sender := "UI", receiver := "IngestionAgent", type := .DOC_UPLOADED,
          trace_id := "t1",
          payload := .mk (some "doc.txt") (some []) none none none none none
            none none none none none }
      = IngestionAgent.handle_message cFail "u1"
        { sender := "UI", receiver := "IngestionAgent", type := .DOC_UPLOADED,
          trace_id := "t1",
          payload := .mk (some "doc.txt") (some []) none none none none none
            none none none none none } :=
  empty_upload_fields_malformed cTest cFail "u1" _ rfl (Or.inr (Or.inl rfl))

/-- C6: a valid upload (both fields present and non-empty, extraction
succeeds) makes the ingestion stage emit exactly one `DOC_INGESTED` envelope
to `RetrievalAgent`, with the same trace id, carrying the parsed chunks, the
file name and `total_chunks` equal to the number of chunks; every chunk is
stamped with `source = fileName`. -/
theorem valid_upload_emits_ingested (c : Collabs) (fresh : String)
    (msg : MCPMessage) (fn : String) (fd : List Nat) (chunks : List Chunk)
    (htype : msg.type = .DOC_UPLOADED)
    (hfn : msg.payload.file_name = some fn) (hfn2 : fn ≠ "")
    (hfd : msg.payload.file_data = some fd) (hfd2 : fd ≠ [])
    (htr : msg.trace_id ≠ "")
    (hp : DocumentParser.parse_document c fd fn = .ok chunks) :
    IngestionAgent.handle_message c fresh msg
      = [{ sender := "IngestionAgent", receiver := "RetrievalAgent",
           type := .DOC_INGESTED, trace_id := msg.trace_id,
           payload := .mk (some fn) none (some chunks) (some chunks.length)
             none none none none none none none none }]
    ∧ ∀ ch ∈ chunks, ch.source = some fn := by
  constructor
  · have hpd : IngestionAgent.process_document c fresh msg
        = .ok (MCPMessageBus.create_message "IngestionAgent" "RetrievalAgent"
            .DOC_INGESTED
            (.mk (some fn) none (some chunks) (some chunks.length) none none
              none none none none none none)
            (some msg.trace_id) fresh) := by
      unfold IngestionAgent.process_document
      rw [hfn, hfd]
      simp [hfn2, hfd2, hp, Except.map]
    simp [IngestionAgent.handle_message, htype, hpd,
      MCPMessageBus.create_message, pyOr_some htr]
  · exact parse_document_stamps c fd fn chunks hp

/-- C6 witness: uploading `"notes.txt"` with one byte of content under the
all-succeeding collaborators. -/
theorem valid_upload_emits_ingested_witness :
    IngestionAgent.handle_message cTest "u1"
        { sender := "UI", receiver := "IngestionAgent", type := .DOC_UPLOADED,
          trace_id := "t1",
          payload := .mk (some "notes.txt") (some [104]) none none none none
            none none none none none none }
      = [{ sender := "IngestionAgent", receiver := "RetrievalAgent",
           type := .DOC_INGESTED, trace_id := "t1",
           payload := .mk (some "notes.txt") none
             (some [{ text := "hello", paragraph := some 1,
                      type := some "txt", source := some "notes.txt" }])
             (some 1) none none none none none none none none }]
    ∧ ∀ ch ∈ [{ text := "hello", paragraph := some 1, type := some "txt",
                source := some "notes.txt" : Chunk }],
        ch.source = some "notes.txt" :=
  valid_upload_emits_ingested cTest "u1" _ "notes.txt" [104]
    [{ text := "hello", paragraph := some 1, type := some "txt",
       source := some "notes.txt" }]
    rfl rfl (by decide) rfl (by decide) (by decide) (by rfl)

/-- C3: when handling a `DOC_UPLOADED` envelope raises internally (any
`process_document` failure, e.g. an always-failing extraction collaborator),
the ingestion stage emits exactly one error envelope, addressed back to the
envelope's sender, carrying the error description and the `to_dict` copy of
the original envelope, under the same trace id. `handle_message` is a total
function: the exception never escapes to the caller that delivered the
envelope. -/
theorem ingestion_failure_one_error (c : Collabs) (fresh : String)
    (msg : MCPMessage) (e : String)
    (htype : msg.type = .DOC_UPLOADED) (htr : msg.trace_id ≠ "")
    (hp : IngestionAgent.process_document c fresh msg = .error e) :
    IngestionAgent.handle_message c fresh msg
      = [{ sender := "IngestionAgent", receiver := msg.sender, type := .ERROR,
           trace_id := msg.trace_id,
           payload := .mk none none none none none none none none none none
             (some e) (some msg.toDict) }] := by
  simp [IngestionAgent.handle_message, htype, hp, IngestionAgent.errorMessage,
    MCPMessageBus.create_message, pyOr_some htr]

/-- C3 witness: a structurally valid upload of `"notes.txt"` under the
all-failing extraction collaborators. -/
theorem ingestion_failure_one_error_witness :
    IngestionAgent.handle_message cFail "u1"
        { sender := "UI", receiver := "IngestionAgent", type := .DOC_UPLOADED,
          trace_id := "t1",
          payload := .mk (some "notes.txt") (some [104]) none none none none
            none none none none none none }
      = [{ sender := "IngestionAgent", receiver := "UI", type := .ERROR,
           trace_id := "t1",
           payload := .mk none none none none none none none none none none
             (some "boom")
             (some (MCPMessage.toDict
               { sender := "UI", receiver := "IngestionAgent",
                 type := .DOC_UPLOADED, trace_id := "t1",
                 payload := .mk (some "notes.txt") (some [104]) none none none
                   none none none none none none none })) }] :=
  ingestion_failure_one_error cFail "u1" _ "boom" rfl (by decide) (by rfl)

/-- C1 counterexample: a retrieval hit whose kind is `"xlsx"` (not one of the
six kinds the chain in `RetrievalAgent._perform_retrieval` recognizes)
produces a context item with zero locator keys, and the retrieval stage
emits it in a normal `RETRIEVAL_RESULT` envelope — no failure of any kind —
refuting the claim that an unknown kind fails loudly rather than yielding a
context item with no locator. -/
theorem locator_unknown_kind_counterexample :
    ContextItem.locatorKeyCount
        (RetrievalAgent.contextItemOf
          { text := "t", score := 0, type := some "xlsx", source := some "d" })
      = 0
    ∧ (RetrievalAgent.handle_message cTest "u1"
        [{ text := "t", type := some "xlsx", source := some "d" }]
        { sender := "LLMResponseAgent", receiver := "RetrievalAgent",
          type := .RETRIEVAL_REQUEST, trace_id := "t1",
          payload := .mk none none none none (some "q") none none none none
            none none none }).2
      = [{ sender := "RetrievalAgent", receiver := "LLMResponseAgent",
           type := .RETRIEVAL_RESULT, trace_id := "t1",
           payload := .mk none none none none (some "q") none
             (some [{ text := "t", source := "d", score := 0 }])
             (some 1) none none none none }] := by
  constructor
  · rfl
  · rfl

/-- C1 amended: the locator mapping of the Retrieval stage is total and
deterministic over the six kinds the code recognizes (`pdf → page`,
`pptx → slide`, `csv → row`, `docx`/`txt`/`md → paragraph`), putting exactly
one locator key on each context item built from a hit of a known kind, and
the Generation stage's source-info extraction preserves that single locator;
but a hit whose kind is missing or outside these six silently yields a
context item with zero locator keys (no failure), rather than failing
loudly. -/
theorem locator_mapping_amended (hit : Hit) (item : ContextItem) :
    (IsKnownKind hit.type →
      ContextItem.locatorKeyCount (RetrievalAgent.contextItemOf hit) = 1)
    ∧ (¬ IsKnownKind hit.type →
      ContextItem.locatorKeyCount (RetrievalAgent.contextItemOf hit) = 0
      ∧ RetrievalAgent.contextItemOf hit
        = { text := hit.text, source := hit.source.getD "unknown",
            score := hit.score })
    ∧ (hit.type = some "pdf" →
      (RetrievalAgent.contextItemOf hit).page = some hit.page)
    ∧ (hit.type = some "pptx" →
      (RetrievalAgent.contextItemOf hit).slide = some hit.slide)
    ∧ (hit.type = some "csv" →
      (RetrievalAgent.contextItemOf hit).row = some hit.row)
    ∧ ((hit.type = some "docx" ∨ hit.type = some "txt"
        ∨ hit.type = some "md") →
      (RetrievalAgent.contextItemOf hit).paragraph = some hit.paragraph)
    ∧ (ContextItem.locatorKeyCount item = 1 →
      SourceEntry.locatorKeyCount (LLMResponseAgent.sourceEntryOf item) = 1) := by
  refine ⟨?_, ?_, ?_, ?_, ?_, ?_, ?_⟩
  · intro hk
    rcases hk with h | h | h | h | h | h <;>
      simp [RetrievalAgent.contextItemOf, h, ContextItem.locatorKeyCount]
  · intro hk
    unfold IsKnownKind at hk
    push_neg at hk
    obtain ⟨h1, h2, h3, h4, h5, h6⟩ := hk
    constructor <;>
      simp [RetrievalAgent.contextItemOf, h1, h2, h3, h4, h5, h6,
        ContextItem.locatorKeyCount]
  · intro h
    simp [RetrievalAgent.contextItemOf, h]
  · intro h
    simp [RetrievalAgent.contextItemOf, h]
  · intro h
    simp [RetrievalAgent.contextItemOf, h]
  · intro h
    rcases h with h | h | h <;> simp [RetrievalAgent.contextItemOf, h]
  · intro h
    unfold ContextItem.locatorKeyCount at h
    unfold LLMResponseAgent.sourceEntryOf
    split_ifs with p1 p2 p3 p4 <;>
      simp_all [SourceEntry.locatorKeyCount]

/-- C1 amended witness: a `pdf` hit with page 3 gets exactly the `page`
locator, and a context item holding exactly a `slide` locator keeps exactly
one locator in its source-info entry. -/
theorem locator_mapping_amended_witness :
    ContextItem.locatorKeyCount
        (RetrievalAgent.contextItemOf
          { text := "t", score := 0, page := some 3, type := some "pdf",
            source := some "r.pdf" })
      = 1
    ∧ (RetrievalAgent.contextItemOf
        { text := "t", score := 0, page := some 3, type := some "pdf",
          source := some "r.pdf" }).page = some (some 3)
    ∧ SourceEntry.locatorKeyCount
        (LLMResponseAgent.sourceEntryOf
          { text := "t", source := "s.pptx", score := 0,
            slide := some (some 2) })
      = 1 := by
  have h := locator_mapping_amended
    { text := "t", score := 0, page := some 3, type := some "pdf",
      source := some "r.pdf" }
    { text := "t", source := "s.pptx", score := 0, slide := some (some 2) }
  exact ⟨h.1 (Or.inl rfl), h.2.2.1 rfl, h.2.2.2.2.2.2 (by decide)⟩

/-- C9: a well-formed `RETRIEVAL_REQUEST` handled against an empty index
produces one `RETRIEVAL_RESULT` carrying zero context items, and the
Generation stage (collaborator unavailable, `llm_available = false`) turns
it into one `FINAL_RESPONSE` whose answer is the literal
no-relevant-information message and whose `source_info` is the empty
sequence, all under the originating trace id. -/
theorem empty_index_query_fallback (c : Collabs) (fresh1 fresh2 : String)
    (m : MCPMessage) (q : String)
    (htype : m.type = .RETRIEVAL_REQUEST)
    (hq : m.payload.query = some q) (hq2 : q ≠ "")
    (htr : m.trace_id ≠ "") :
    (RetrievalAgent.handle_message c fresh1 [] m).2
      = [{ sender := "RetrievalAgent", receiver := "LLMResponseAgent",
           type := .RETRIEVAL_RESULT, trace_id := m.trace_id,
           payload := .mk none none none none (some q) none (some [])
             (some 0) none none none none }]
    ∧ LLMResponseAgent.handle_message c false fresh2
        { sender := "RetrievalAgent", receiver := "LLMResponseAgent",
          type := .RETRIEVAL_RESULT, trace_id := m.trace_id,
          payload := .mk none none none none (some q) none (some [])
            (some 0) none none none none }
      = [{ sender := "LLMResponseAgent", receiver := "UI",
           type := .FINAL_RESPONSE, trace_id := m.trace_id,
           payload := .mk none none none none (some q) none none none
             (some "I couldn't find relevant information in the uploaded documents to answer your question.")
             (some []) none none }] := by
  constructor
  · simp [RetrievalAgent.handle_message, htype,
      RetrievalAgent.perform_retrieval, hq, hq2, VectorStore.search,
      MCPMessageBus.create_message, pyOr_some htr]
  · simp [LLMResponseAgent.handle_message, LLMResponseAgent.generate_response,
      LLMResponseAgent.generate_fallback_response,
      MCPMessageBus.create_message, pyOr_some htr, Payload.query,
      Payload.retrieved_context]

/-- C9 witness: the query `"what is X?"` against the empty index under the
concrete collaborators. -/
theorem empty_index_query_fallback_witness :
    (RetrievalAgent.handle_message cTest "u1" []
        { sender := "LLMResponseAgent", receiver := "RetrievalAgent",
          type := .RETRIEVAL_REQUEST, trace_id := "t1",
          payload := .mk none none none none (some "what is X?") none none
            none none none none none }).2
      = [{ sender := "RetrievalAgent", receiver := "LLMResponseAgent",
           type := .RETRIEVAL_RESULT, trace_id := "t1",
           payload := .mk none none none none (some "what is X?") none
             (some []) (some 0) none none none none }]
    ∧ LLMResponseAgent.handle_message cTest false "u2"
        { sender := "RetrievalAgent", receiver := "LLMResponseAgent",
          type := .RETRIEVAL_RESULT, trace_id := "t1",
          payload := .mk none none none none (some "what is X?") none
            (some []) (some 0) none none none none }
      = [{ sender := "LLMResponseAgent", receiver := "UI",
           type := .FINAL_RESPONSE, trace_id := "t1",
           payload := .mk none none none none (some "what is X?") none none
             none
             (some "I couldn't find relevant information in the uploaded documents to answer your question.")
             (some []) none none }] :=
  empty_index_query_fallback cTest "u1" "u2" _ "what is X?" rfl rfl
    (by decide) (by decide)

theorem process_document_ok_trace (c : Collabs) (fresh : String)
    (msg m : MCPMessage)
    (h : IngestionAgent.process_document c fresh msg = .ok m) :
    m.trace_id = pyOr (some msg.trace_id) fresh := by
  unfold IngestionAgent.process_document at h
  rcases hfn : msg.payload.file_name with _ | fn <;> rw [hfn] at h
  · exact absurd h (by simp)
  rcases hfd : msg.payload.file_data with _ | fd <;> rw [hfd] at h
  · exact absurd h (by simp)
  simp only at h
  by_cases hcond : fn = "" ∨ fd = []
  · rw [if_pos hcond] at h
    exact absurd h (by simp)
  · rw [if_neg hcond] at h
    cases hpp : DocumentParser.parse_document c fd fn with
    | error e => rw [hpp] at h; exact absurd h (by simp [Except.map])
    | ok chunks =>
      rw [hpp] at h
      simp only [Except.map, Except.ok.injEq] at h
      subst h
      rfl

theorem perform_retrieval_ok_trace (c : Collabs) (fresh : String)
    (store : List Chunk) (msg m : MCPMessage)
    (h : RetrievalAgent.perform_retrieval c fresh store msg = .ok m) :
    m.trace_id = pyOr (some msg.trace_id) fresh := by
  unfold RetrievalAgent.perform_retrieval at h
  rcases hq : msg.payload.query with _ | q <;> rw [hq] at h
  · exact absurd h (by simp)
  simp only at h
  by_cases hq2 : q = ""
  · rw [if_pos hq2] at h
    exact absurd h (by simp)
  · rw [if_neg hq2] at h
    simp only [Except.ok.injEq] at h
    subst h
    rfl

theorem process_user_query_ok_trace (fresh : String) (msg m : MCPMessage)
    (h : LLMResponseAgent.process_user_query fresh msg = .ok m) :
    m.trace_id = pyOr (some msg.trace_id) fresh := by
  unfold LLMResponseAgent.process_user_query at h
  rcases hq : msg.payload.query with _ | q <;> rw [hq] at h
  · exact absurd h (by simp)
  simp only at h
  by_cases hq2 : q = ""
  · rw [if_pos hq2] at h
    exact absurd h (by simp)
  · rw [if_neg hq2] at h
    simp only [Except.ok.injEq] at h
    subst h
    rfl

/-- C4: every envelope a stage emits while handling an incoming envelope —
the ingestion stage's `DOC_INGESTED`, the retrieval stage's
`RETRIEVAL_RESULT`, the generation stage's `RETRIEVAL_REQUEST` and
`FINAL_RESPONSE`, and every error envelope — carries the incoming
envelope's trace id (stated for any trace id that is a real, non-empty
uuid string, matching the spec's `traceId : UUID` data model); fresh ids
are minted only by the two UI entry points `upload_document` and
`ask_question`, which emit their single envelope under the freshly drawn
uuid and return exactly that id. -/
theorem trace_preservation (c : Collabs) (fresh : String)
    (store : List Chunk) (llm : Bool) (msg : MCPMessage)
    (htr : msg.trace_id ≠ "") :
    (∀ m ∈ IngestionAgent.handle_message c fresh msg,
      m.trace_id = msg.trace_id)
    ∧ (∀ m ∈ (RetrievalAgent.handle_message c fresh store msg).2,
      m.trace_id = msg.trace_id)
    ∧ (∀ m ∈ LLMResponseAgent.handle_message c llm fresh msg,
      m.trace_id = msg.trace_id)
    ∧ (∀ tid fn fd, (UIAgent.upload_document tid fn fd).1.trace_id = tid
        ∧ (UIAgent.upload_document tid fn fd).2 = tid)
    ∧ (∀ tid qq, (UIAgent.ask_question tid qq).1.trace_id = tid
        ∧ (UIAgent.ask_question tid qq).2 = tid) := by
  refine ⟨?_, ?_, ?_, ?_, ?_⟩
  · intro m hm
    unfold IngestionAgent.handle_message at hm
    cases hmt : msg.type <;> rw [hmt] at hm <;> simp at hm
    case DOC_UPLOADED =>
      cases hpd : IngestionAgent.process_document c fresh msg with
      | ok m2 =>
        rw [hpd] at hm
        simp at hm
        subst hm
        rw [process_document_ok_trace c fresh msg m hpd, pyOr_some htr]
      | error e =>
        rw [hpd] at hm
        simp at hm
        subst hm
        simp [IngestionAgent.errorMessage, MCPMessageBus.create_message,
          pyOr_some htr]
  · intro m hm
    unfold RetrievalAgent.handle_message at hm
    cases hmt : msg.type <;> rw [hmt] at hm <;> simp at hm
    case RETRIEVAL_REQUEST =>
      cases hpr : RetrievalAgent.perform_retrieval c fresh store msg with
      | ok m2 =>
        rw [hpr] at hm
        simp at hm
        subst hm
        rw [perform_retrieval_ok_trace c fresh store msg m hpr,
          pyOr_some htr]
      | error e =>
        rw [hpr] at hm
        simp at hm
        subst hm
        simp [RetrievalAgent.errorMessage, MCPMessageBus.create_message,
          pyOr_some htr]
  · intro m hm
    unfold LLMResponseAgent.handle_message at hm
    cases hmt : msg.type <;> rw [hmt] at hm <;> simp at hm
    case USER_QUERY =>
      cases huq : LLMResponseAgent.process_user_query fresh msg with
      | ok m2 =>
        rw [huq] at hm
        simp at hm
        subst hm
        rw [process_user_query_ok_trace fresh msg m huq, pyOr_some htr]
      | error e =>
        rw [huq] at hm
        simp at hm
        subst hm
        simp [LLMResponseAgent.errorMessage, MCPMessageBus.create_message,
          pyOr_some htr]
    case RETRIEVAL_RESULT =>
      subst hm
      simp [LLMResponseAgent.generate_response,
        MCPMessageBus.create_message, pyOr_some htr]
  · intro tid fn fd
    constructor
    · simp [UIAgent.upload_document, MCPMessageBus.create_message, pyOr]
    · rfl
  · intro tid qq
    constructor
    · simp [UIAgent.ask_question, MCPMessageBus.create_message, pyOr]
    · rfl

/-- C4 witness: the theorem applied to a concrete `DOC_UPLOADED` envelope
with trace id `"t1"` under the all-succeeding collaborators. -/
theorem trace_preservation_witness :
    (∀ m ∈ IngestionAgent.handle_message cTest "u1"
        { sender := "UI", receiver := "IngestionAgent", type := .DOC_UPLOADED,
          trace_id := "t1",
          payload := .mk (some "notes.txt") (some [104]) none none none none
            none none none none none none },
      m.trace_id = "t1")
    ∧ (UIAgent.upload_document "t9" "notes.txt" [104]).1.trace_id = "t9" := by
  have h := trace_preservation cTest "u1" [] false
    { sender := "UI", receiver := "IngestionAgent", type := .DOC_UPLOADED,
      trace_id := "t1",
      payload := .mk (some "notes.txt") (some [104]) none none none none
        none none none none none none }
    (by decide)
  exact ⟨h.1, (h.2.2.2.1 "t9" "notes.txt" [104]).1⟩

/-- The `subscribe` wiring performed at startup (src/ui/streamlit_app.py:
the `UIAgent` in `StreamlitApp.__init__`, then `IngestionAgent`,
`RetrievalAgent`, `LLMResponseAgent` in `initialize_agents`). -/
def standardHandlers : List (String × AgentId) :=
  MCPMessageBus.subscribe
    (MCPMessageBus.subscribe
      (MCPMessageBus.subscribe
        (MCPMessageBus.subscribe [] "UI" .ui)
        "IngestionAgent" .ingestion)
      "RetrievalAgent" .retrieval)
    "LLMResponseAgent" .generation

/-- Fresh agent states: empty vector store, no Gemini key, empty UI dicts. -/
def agents0 : AgentStates :=
  { vstore := [], llm_available := false, ui_responses := [], ui_errors := [] }

/-- The standard system right after startup. -/
def sys0 : SystemState :=
  { handlers := standardHandlers, queue := [], agents := agents0,
    uuid_ctr := 0 }

theorem send_frame (c : Collabs) : ∀ fuel : Nat,
    (∀ sys msg,
      (∃ r, (sendMessage c fuel sys msg).queue = sys.queue ++ msg :: r)
      ∧ (sendMessage c fuel sys msg).handlers = sys.handlers)
    ∧ (∀ msgs : List MCPMessage, ∀ sys,
      (∃ r, (sendAll c fuel sys msgs).queue = sys.queue ++ r)
      ∧ (sendAll c fuel sys msgs).handlers = sys.handlers) := by
  intro fuel
  induction fuel with
  | zero =>
    have hp : ∀ sys msg,
        (∃ r, (sendMessage c 0 sys msg).queue = sys.queue ++ msg :: r)
        ∧ (sendMessage c 0 sys msg).handlers = sys.handlers := by
      intro sys msg
      refine ⟨⟨[], ?_⟩, ?_⟩ <;> simp [sendMessage]
    refine ⟨hp, ?_⟩
    intro msgs
    induction msgs with
    | nil =>
      intro sys
      refine ⟨⟨[], ?_⟩, ?_⟩ <;> simp [sendAll]
    | cons m ms ih =>
      intro sys
      have hstep : sendAll c 0 sys (m :: ms)
          = sendAll c 0 (sendMessage c 0 sys m) ms := by
        simp [sendAll]
      obtain ⟨⟨r2, hq2⟩, hh2⟩ := ih (sendMessage c 0 sys m)
      obtain ⟨⟨r1, hq1⟩, hh1⟩ := hp sys m
      rw [hstep]
      refine ⟨⟨(m :: r1) ++ r2, ?_⟩, ?_⟩
      · rw [hq2, hq1]
        simp
      · rw [hh2, hh1]
  | succ f ihf =>
    have hp : ∀ sys msg,
        (∃ r, (sendMessage c (f + 1) sys msg).queue = sys.queue ++ msg :: r)
        ∧ (sendMessage c (f + 1) sys msg).handlers = sys.handlers := by
      intro sys msg
      cases hl : lookupHandler sys.handlers msg.receiver with
      | none =>
        have : sendMessage c (f + 1) sys msg
            = { sys with queue := sys.queue ++ [msg] } := by
          simp [sendMessage, hl]
        rw [this]
        exact ⟨⟨[], rfl⟩, rfl⟩
      | some aid =>
        have hstep : sendMessage c (f + 1) sys msg
            = sendAll c f
                { sys with
                  queue := sys.queue ++ [msg]
                  agents := (dispatchAgent c (uuidDraw sys.uuid_ctr) aid
                    sys.agents msg).1
                  uuid_ctr := sys.uuid_ctr + 1 }
                (dispatchAgent c (uuidDraw sys.uuid_ctr) aid sys.agents
                  msg).2 := by
          simp [sendMessage, hl]
        obtain ⟨⟨r2, hq2⟩, hh2⟩ := ihf.2
          (dispatchAgent c (uuidDraw sys.uuid_ctr) aid sys.agents msg).2
          { sys with
            queue := sys.queue ++ [msg]
            agents := (dispatchAgent c (uuidDraw sys.uuid_ctr) aid
              sys.agents msg).1
            uuid_ctr := sys.uuid_ctr + 1 }
        rw [hstep]
        refine ⟨⟨r2, ?_⟩, hh2⟩
        · rw [hq2]
          simp
    refine ⟨hp, ?_⟩
    intro msgs
    induction msgs with
    | nil =>
      intro sys
      refine ⟨⟨[], ?_⟩, ?_⟩ <;> simp [sendAll]
    | cons m ms ih =>
      intro sys
      have hstep : sendAll c (f + 1) sys (m :: ms)
          = sendAll c (f + 1) (sendMessage c (f + 1) sys m) ms := by
        simp [sendAll]
      obtain ⟨⟨r2, hq2⟩, hh2⟩ := ih (sendMessage c (f + 1) sys m)
      obtain ⟨⟨r1, hq1⟩, hh1⟩ := hp sys m
      rw [hstep]
      refine ⟨⟨(m :: r1) ++ r2, ?_⟩, ?_⟩
      · rw [hq2, hq1]
        simp
      · rw [hh2, hh1]

/-- C5: `send_message` appends the envelope to the internal queue — which is
audit-only: no delivery path ever consumes it, so after any publish the
prior queue followed by the published envelope is a prefix of the final
queue (conjunct 1, via every transitively triggered delivery only appending
further) — leaves the registry untouched (conjunct 2), and, when a handler
is bound to `envelope.receiver`, its value is exactly the recursive
synchronous delivery of that handler's activation and of everything the
activation emits (conjunct 3): in this functional model `sendMessage`
returning at all is it returning after the handler and everything it
transitively triggered has completed. -/
theorem publish_appends_then_invokes (c : Collabs) (fuel : Nat)
    (sys : SystemState) (msg : MCPMessage) :
    (∃ rest, (sendMessage c fuel sys msg).queue = sys.queue ++ msg :: rest)
    ∧ (sendMessage c fuel sys msg).handlers = sys.handlers
    ∧ (∀ f aid, fuel = f + 1 →
        lookupHandler sys.handlers msg.receiver = some aid →
        sendMessage c fuel sys msg
          = sendAll c f
              { sys with
                queue := sys.queue ++ [msg]
                agents := (dispatchAgent c (uuidDraw sys.uuid_ctr) aid
                  sys.agents msg).1
                uuid_ctr := sys.uuid_ctr + 1 }
              (dispatchAgent c (uuidDraw sys.uuid_ctr) aid sys.agents
                msg).2) := by
  refine ⟨((send_frame c fuel).1 sys msg).1, ((send_frame c fuel).1 sys msg).2,
    ?_⟩
  intro f aid hf hl
  subst hf
  simp [sendMessage, hl]

/-- C5 witness: publishing a `FINAL_RESPONSE` addressed to the registered
`"UI"` handler on the standard startup system, with the invocation equation
instantiated and its hypotheses discharged. -/
theorem publish_appends_then_invokes_witness :
    (sendMessage cTest 1 sys0
        { sender := "LLMResponseAgent", receiver := "UI",
          type := .FINAL_RESPONSE, trace_id := "t1",
          payload := Payload.empty }).handlers = sys0.handlers
    ∧ sendMessage cTest 1 sys0
        { sender := "LLMResponseAgent", receiver := "UI",
          type := .FINAL_RESPONSE, trace_id := "t1",
          payload := Payload.empty }
      = sendAll cTest 0
          { sys0 with
            queue := sys0.queue
              ++ [{ sender := "LLMResponseAgent", receiver := "UI",
                    type := .FINAL_RESPONSE, trace_id := "t1",
                    payload := Payload.empty }]
            agents := (dispatchAgent cTest (uuidDraw sys0.uuid_ctr) .ui
              sys0.agents
              { sender := "LLMResponseAgent", receiver := "UI",
                type := .FINAL_RESPONSE, trace_id := "t1",
                payload := Payload.empty }).1
            uuid_ctr := sys0.uuid_ctr + 1 }
          (dispatchAgent cTest (uuidDraw sys0.uuid_ctr) .ui sys0.agents
            { sender := "LLMResponseAgent", receiver := "UI",
              type := .FINAL_RESPONSE, trace_id := "t1",
              payload := Payload.empty }).2 := by
  have h := publish_appends_then_invokes cTest 1 sys0
    { sender := "LLMResponseAgent", receiver := "UI",
      type := .FINAL_RESPONSE, trace_id := "t1", payload := Payload.empty }
  exact ⟨h.2.1, h.2.2 0 .ui rfl rfl⟩

/-- C2 counterexample: publishing an envelope addressed to the unregistered
name `"Ghost"` on the fully wired startup system completes normally — no
`UnknownReceiver` fault, no abort — and its entire effect is the audit-queue
append: no handler runs, no agent state changes, the envelope is silently
not delivered. This refutes the claim that such a publish fails with a hard
fault. -/
theorem unknown_receiver_counterexample :
    sendMessage cTest 5 sys0
        { sender := "UI", receiver := "Ghost", type := .USER_QUERY,
          trace_id := "t1", payload := Payload.empty }
      = { handlers := standardHandlers
          queue := [{ sender := "UI", receiver := "Ghost",
                      type := .USER_QUERY, trace_id := "t1",
                      payload := Payload.empty }]
          agents := agents0
          uuid_ctr := 0 } := by
  simp [sendMessage, sys0, agents0, standardHandlers,
    MCPMessageBus.subscribe, lookupHandler]

/-- C2 amended: for every envelope whose receiver name has no registration,
`send_message` appends the envelope to the audit queue and returns normally
without delivering it to any handler and without raising: the envelope is
silently dropped (only the audit record remains) rather than failing with a
hard `UnknownReceiver` fault. -/
theorem unknown_receiver_silently_dropped (c : Collabs) (fuel : Nat)
    (sys : SystemState) (msg : MCPMessage)
    (h : lookupHandler sys.handlers msg.receiver = none) :
    sendMessage c fuel sys msg = { sys with queue := sys.queue ++ [msg] } := by
  cases fuel with
  | zero => simp [sendMessage]
  | succ f => simp [sendMessage, h]

/-- C2 witness: the amended theorem applied to the `"Ghost"` receiver on the
standard startup system. -/
theorem unknown_receiver_silently_dropped_witness :
    sendMessage cTest 3 sys0
        { sender := "UI", receiver := "Ghost", type := .USER_QUERY,
          trace_id := "t2", payload := Payload.empty }
      = { sys0 with queue := sys0.queue
          ++ [{ sender := "UI", receiver := "Ghost", type := .USER_QUERY,
                trace_id := "t2", payload := Payload.empty }] } :=
  unknown_receiver_silently_dropped cTest 3 sys0
    { sender := "UI", receiver := "Ghost", type := .USER_QUERY,
      trace_id := "t2", payload := Payload.empty } rfl
